import Mathlib

/-!
Verification of the tsbs data-generation and query-generation pipeline.

The development shallowly embeds `cmd/tsbs_generate_data/main.go` (the
round-robin interleaved-group generation driver, its configuration
validation, and the TimescaleDB schema preamble) and
`cmd/bulk_query_gen/timescaledb_devops_high_cpu.go` (the high-CPU query
generator).  Collaborator packages that are not part of the given sources
(`serialize`, `common`, `devops`, and the engine-common query generator)
are modelled from the specification; every such definition is marked
`Modelled from the spec`.
-/

namespace Tsbs

/-- Modelled from the spec: a Point is one emitted measurement sample with a
timestamp, a measurement name, ordered tag pairs and ordered field pairs
(`serialize.Point`, outside the given sources). -/
structure Point where
  measurementName : String
  timestamp : Int
  tags : List (String × String)
  fields : List (String × String)
deriving DecidableEq, Repr

/-- Modelled from the spec: `serialize.NewPoint` constructs an empty Point. -/
def NewPoint : Point := ⟨"", 0, [], []⟩

/-- Modelled from the spec: `Point.Reset` returns the buffer to the empty
state of a freshly constructed Point. -/
def Point.Reset (_ : Point) : Point := NewPoint

/-- Modelled from the spec: the data one simulator iteration writes into the
shared Point buffer when it produces a record. -/
structure PointData where
  measurementName : String
  timestamp : Int
  tags : List (String × String)
  fields : List (String × String)
deriving DecidableEq, Repr

/-- Modelled from the spec: `sim.Next(point)` sets the name and timestamp and
appends tag and field pairs to whatever the buffer already holds. -/
def fillPoint (p : Point) (d : PointData) : Point :=
  ⟨d.measurementName, d.timestamp, p.tags ++ d.tags, p.fields ++ d.fields⟩

/-- A simulator run is the finite sequence of its iterations: each `Next`
call writes some data into the buffer and returns whether this iteration
produced a record to be emitted (`write`). -/
def SimIters := List (PointData × Bool)

/-- Observable outcome of `runSimulator`: the Points handed to
`serializer.Serialize` in order, the final round-robin counter, the counter
value after each iteration, and the buffer state at entry to each `Next`
call. -/
structure RunResult where
  output : List Point
  counter : Nat
  counters : List Nat
  buffers : List Point
deriving DecidableEq, Repr

/-- Embedding of the loop of `runSimulator` (main.go lines 192-214): on a
non-produced iteration the buffer is reset and the counter is untouched; on a
produced iteration the filled buffer is serialized when `curr = groupID`, the
buffer is reset, and the counter advances by one modulo `totalGroups`. -/
def runSimAux (groupID totalGroups : Nat) :
    List (PointData × Bool) → Point → Nat → RunResult
  | [], _, curr => ⟨[], curr, [], []⟩
  | (d, false) :: rest, point, curr =>
    let filled := fillPoint point d
    let r := runSimAux groupID totalGroups rest filled.Reset curr
    ⟨r.output, r.counter, curr :: r.counters, point :: r.buffers⟩
  | (d, true) :: rest, point, curr =>
    let filled := fillPoint point d
    let r := runSimAux groupID totalGroups rest filled.Reset ((curr + 1) % totalGroups)
    ⟨(if curr = groupID then [filled] else []) ++ r.output, r.counter,
      ((curr + 1) % totalGroups) :: r.counters, point :: r.buffers⟩

/-- `runSimulator sim serializer out groupID totalGroups`: the driver starts
from a freshly allocated Point and counter 0 (main.go lines 193-194). -/
def runSimulator (iters : List (PointData × Bool)) (groupID totalGroups : Nat) :
    RunResult :=
  runSimAux groupID totalGroups iters NewPoint 0

/-- The records actually produced by the simulator iterations, in order. -/
def produced (iters : List (PointData × Bool)) : List PointData :=
  (iters.filter Prod.snd).map Prod.fst

/-- The number of produced records among the iterations. -/
def producedCount (iters : List (PointData × Bool)) : Nat :=
  (iters.filter Prod.snd).length

/-- Spec-side selection: the elements whose zero-based position (counted from
`i`) is congruent to `groupID` modulo `totalGroups`, kept in order. -/
def selectIdx {α : Type} (totalGroups groupID : Nat) : List α → Nat → List α
  | [], _ => []
  | a :: l, i =>
    (if i % totalGroups = groupID then [a] else [])
      ++ selectIdx totalGroups groupID l (i + 1)

/-- Output data format choices (main.go lines 36-39). -/
def formatCassandra : String := "cassandra"

def formatInflux : String := "influx"

def formatMongo : String := "mongo"

def formatTimescaleDB : String := "timescaledb"

/-- Use case choices (main.go lines 42-44). -/
def useCaseCPUOnly : String := "cpu-only"

def useCaseCPUSingle : String := "cpu-single"

def useCaseDevops : String := "devops"

def errTotalGroupsZero : String :=
  "incorrect interleaved groups configuration: total groups = 0"

def errInvalidGroups (groupID totalGroups : Nat) : String :=
  "incorrect interleaved groups configuration: id " ++ toString groupID
    ++ " >= total groups " ++ toString totalGroups

def formatChoices : List String :=
  [formatCassandra, formatInflux, formatMongo, formatTimescaleDB]

/-- Embedding of `validateGroups` (main.go lines 99-106); the Go `error`
result is an `Option String`. -/
def validateGroups (groupID totalGroups : Nat) : Bool × Option String :=
  if totalGroups = 0 then (false, some errTotalGroupsZero)
  else if groupID ≥ totalGroups then
    (false, some (errInvalidGroups groupID totalGroups))
  else (true, none)

/-- Embedding of `validateFormat` (main.go lines 108-115): linear scan of the
format choices. -/
def validateFormat (format : String) : Bool :=
  formatChoices.any (fun s => s = format)

/-- The host constructor selected by the use case (main.go lines 225, 234,
243); the constructors themselves live outside the given sources. -/
inductive HostKind where
  | host
  | hostCPUOnly
  | hostCPUSingle
deriving DecidableEq, Repr

/-- The configuration assembled by `getConfig`: start and end timestamps,
initial and target host counts, and the host constructor. -/
structure SimulatorConfig where
  start : Int
  finish : Int
  initHostCount : Nat
  hostCount : Nat
  hostKind : HostKind
deriving DecidableEq, Repr

/-- Embedding of `getConfig` (main.go lines 216-249): the default branch of
the switch calls `fatal`, modelled as `none`. -/
def getConfig (useCase : String) (timestampStart timestampEnd : Int)
    (initScaleVar scaleVar : Nat) : Option SimulatorConfig :=
  if useCase = useCaseDevops then
    some ⟨timestampStart, timestampEnd, initScaleVar, scaleVar, HostKind.host⟩
  else if useCase = useCaseCPUOnly then
    some ⟨timestampStart, timestampEnd, initScaleVar, scaleVar, HostKind.hostCPUOnly⟩
  else if useCase = useCaseCPUSingle then
    some ⟨timestampStart, timestampEnd, initScaleVar, scaleVar, HostKind.hostCPUSingle⟩
  else none

/-- Modelled from the spec: the fixed, run-independent machine tag key list
(`devops.MachineTagKeys`), whose concrete entries live outside the given
sources. -/
def MachineTagKeys : List String :=
  ["hostname", "region", "datacenter", "rack", "os", "arch", "team",
    "service", "service_version", "service_environment"]

/-- The field-name list a measurement maps to in `sim.Fields()`; a missing
measurement yields the empty list (Go map indexing). -/
def lookupFields (fields : List (String × List String)) (name : String) :
    List String :=
  match fields.lookup name with
  | some fs => fs
  | none => []

/-- Embedding of `sort.Strings` on the measurement names collected from the
`sim.Fields()` map (main.go lines 267-272). -/
def sortKeys (fields : List (String × List String)) : List String :=
  List.insertionSort (· ≤ ·) (fields.map Prod.fst)

/-- The tag header line written by `getSerializer` for TimescaleDB
(main.go lines 260-265): the marker then a comma before each tag key. -/
def tagsLine (tagKeys : List String) : String :=
  "tags" ++ String.join (tagKeys.map (fun k => "," ++ k))

/-- One measurement header line (main.go lines 273-281): the measurement name
then a comma before each of its field names. -/
def measurementLine (fields : List (String × List String)) (name : String) :
    String :=
  name ++ String.join ((lookupFields fields name).map (fun f => "," ++ f))

/-- The TimescaleDB schema preamble, line by line (main.go lines 259-283):
tag header, one line per measurement in sorted name order, blank line. -/
def timescaleDBPreambleLines (tagKeys : List String)
    (fields : List (String × List String)) : List String :=
  tagsLine tagKeys :: (sortKeys fields).map (measurementLine fields) ++ [""]

/-- Embedding of the seed selection in `postFlagParse` (main.go lines
124-129): a zero flag seed is replaced by the current time. -/
def effectiveSeed (flagSeed now : Int) : Int :=
  if flagSeed = 0 then now else flagSeed

/-- Embedding of `main` (main.go lines 164-190) as a function from the
configuration and the environment to the emitted chunks and the fatal error,
if any.  The simulator construction and the per-record encoders live outside
the given sources and are passed in as functions: `simulate` maps the
effective seed and the configuration to the iteration sequence, and
`serializeFn` encodes one Point into one chunk.  A `fatal` call is modelled
as stopping with `some` error and the chunks written so far (none: every
validation runs before any write). -/
def mainRun (simulate : Int → SimulatorConfig → List (PointData × Bool))
    (serializeFn : Point → String)
    (fields : List (String × List String)) (tagKeys : List String)
    (flagSeed now : Int) (timestampStart timestampEnd : Int)
    (initScaleVar scaleVar : Nat) (groupID totalGroups : Nat)
    (format useCase : String) : List String × Option String :=
  match (validateGroups groupID totalGroups).2 with
  | some e => ([], some e)
  | none =>
    if validateFormat format = false then
      ([], some ("invalid format specifier: " ++ format))
    else
      match getConfig useCase timestampStart timestampEnd initScaleVar scaleVar with
      | none => ([], some ("unknown use case: " ++ useCase))
      | some cfg =>
        let iters := simulate (effectiveSeed flagSeed now) cfg
        let preambleChunks :=
          if format = formatTimescaleDB then
            timescaleDBPreambleLines tagKeys fields
          else []
        let records := (runSimulator iters groupID totalGroups).output.map serializeFn
        (preambleChunks ++ records, none)

/-- The Go `%` on `uint`: panics (models as `none`) when the divisor is 0. -/
def checkedMod (a b : Nat) : Option Nat :=
  if b = 0 then none else some (a % b)

/-- The loop of `runSimulator` again, with the counter update
`(currGroup + 1) % totalGroups` (main.go line 212) guarded the way the Go
runtime guards it: a zero divisor is a panic, modelled as `none`. -/
def runSimAuxChecked (groupID totalGroups : Nat) :
    List (PointData × Bool) → Point → Nat → Option (List Point × Nat)
  | [], _, curr => some ([], curr)
  | (d, false) :: rest, point, curr =>
    let filled := fillPoint point d
    runSimAuxChecked groupID totalGroups rest filled.Reset curr
  | (d, true) :: rest, point, curr =>
    let filled := fillPoint point d
    match checkedMod (curr + 1) totalGroups with
    | none => none
    | some c2 =>
      match runSimAuxChecked groupID totalGroups rest filled.Reset c2 with
      | none => none
      | some (out, fin) =>
        some ((if curr = groupID then [filled] else []) ++ out, fin)

/-- Panic-aware variant of `runSimulator`. -/
def runSimulatorChecked (iters : List (PointData × Bool))
    (groupID totalGroups : Nat) : Option (List Point × Nat) :=
  runSimAuxChecked groupID totalGroups iters NewPoint 0

/-- Modelled from the spec: the engine connection and configuration
parameters (`DatabaseConfig`, outside the given sources). -/
abbrev DatabaseConfig := List (String × String)

/-- Modelled from the spec: a Query is an opaque payload interpreted by the
target engine's client, obtained from a reuse pool. -/
structure Query where
  payload : String
deriving DecidableEq, Repr

/-- Modelled from the spec: the shared engine-common TimescaleDB devops
generator holds the database configuration and the time range
(`TimescaleDBDevops`, outside the given sources). -/
structure TimescaleDBDevops where
  dbConfig : DatabaseConfig
  start : Int
  finish : Int
deriving DecidableEq, Repr

/-- Modelled from the spec: `newTimescaleDBDevopsCommon` builds the shared
generator from `(dbConfig, start, end)`. -/
def newTimescaleDBDevopsCommon (dbConfig : DatabaseConfig)
    (start finish : Int) : TimescaleDBDevops :=
  ⟨dbConfig, start, finish⟩

/-- Embedding of `TimescaleDBDevopsHighCPU`
(timescaledb_devops_high_cpu.go lines 6-9): the embedded shared generator
plus the extra `hosts` field. -/
structure TimescaleDBDevopsHighCPU where
  toTimescaleDBDevops : TimescaleDBDevops
  hosts : Int
deriving DecidableEq, Repr

/-- Embedding of `NewTimescaleDBDevopsHighCPU`
(timescaledb_devops_high_cpu.go lines 12-20): the returned factory builds
the common generator from `(dbConfig, start, end)` and pairs it with
`hosts`. -/
def NewTimescaleDBDevopsHighCPU (hosts : Int) (dbConfig : DatabaseConfig)
    (start finish : Int) : TimescaleDBDevopsHighCPU :=
  ⟨newTimescaleDBDevopsCommon dbConfig start finish, hosts⟩

/-- Embedding of `Dispatch` (timescaledb_devops_high_cpu.go lines 23-27).
`HighCPUForHosts` (the shared builder filling the query in place) and
`NewTimescaleDBQuery` (the pool fetch) live outside the given sources, so
the builder is a function argument and `pooled` is the Query obtained from
the pool; filling in place is modelled by returning the builder's result.
The first Go parameter is the anonymous `_`. -/
def TimescaleDBDevopsHighCPU.Dispatch
    (highCPUForHosts : TimescaleDBDevops → Query → Int → Int → Query)
    (pooled : Query) (d : TimescaleDBDevopsHighCPU) (_x scaleVar : Int) :
    Query :=
  highCPUForHosts d.toTimescaleDBDevops pooled scaleVar d.hosts

theorem Point.Reset_eq (p : Point) : p.Reset = NewPoint := rfl

theorem produced_cons_true (d : PointData) (l : List (PointData × Bool)) :
    produced ((d, true) :: l) = d :: produced l := rfl

theorem produced_cons_false (d : PointData) (l : List (PointData × Bool)) :
    produced ((d, false) :: l) = produced l := rfl

theorem producedCount_cons_true (d : PointData) (l : List (PointData × Bool)) :
    producedCount ((d, true) :: l) = producedCount l + 1 := by
  simp [producedCount, List.filter_cons]

theorem producedCount_cons_false (d : PointData) (l : List (PointData × Bool)) :
    producedCount ((d, false) :: l) = producedCount l := by
  simp [producedCount, List.filter_cons]

theorem runSimAux_output_eq (groupID totalGroups : Nat)
    (iters : List (PointData × Bool)) :
    ∀ i : Nat,
      (runSimAux groupID totalGroups iters NewPoint (i % totalGroups)).output
        = (selectIdx totalGroups groupID (produced iters) i).map (fillPoint NewPoint) := by
  induction iters with
  | nil => intro i; simp [runSimAux, produced, selectIdx]
  | cons hd rest ih =>
    intro i
    obtain ⟨d, w⟩ := hd
    cases w with
    | false =>
      simpa [runSimAux, produced_cons_false, Point.Reset_eq] using ih i
    | true =>
      have hstep : (i % totalGroups + 1) % totalGroups = (i + 1) % totalGroups :=
        Nat.mod_add_mod i totalGroups 1
      have := ih (i + 1)
      simp only [runSimAux, produced_cons_true, selectIdx, Point.Reset_eq, hstep,
        List.map_append]
      rw [this]
      by_cases hc : i % totalGroups = groupID <;> simp [hc, produced]

theorem producedCount_nil : producedCount [] = 0 := rfl

theorem runSimAux_counters_eq (groupID totalGroups : Nat)
    (iters : List (PointData × Bool)) (htot : 0 < totalGroups) :
    ∀ c : Nat, c < totalGroups →
      (runSimAux groupID totalGroups iters NewPoint c).counters
        = (List.range iters.length).map
            (fun j => (c + producedCount (iters.take (j + 1))) % totalGroups) := by
  induction iters with
  | nil => intro c _; simp [runSimAux]
  | cons hd rest ih =>
    intro c hc
    obtain ⟨d, w⟩ := hd
    cases w with
    | false =>
      have hmap : ∀ j ∈ List.range rest.length,
          ((fun j => (c + producedCount (List.take (j + 1) ((d, false) :: rest)))
              % totalGroups) ∘ Nat.succ) j
            = (c + producedCount (List.take (j + 1) rest)) % totalGroups := by
        intro j _
        simp [Nat.succ_eq_add_one, List.take_succ_cons, producedCount_cons_false]
      simp only [runSimAux, Point.Reset_eq, List.length_cons,
        List.range_succ_eq_map, List.map_cons, List.map_map, ih c hc,
        List.map_congr_left hmap]
      simp [List.take_succ_cons, producedCount_cons_false, producedCount_nil,
        Nat.mod_eq_of_lt hc]
    | true =>
      have hc2 : (c + 1) % totalGroups < totalGroups := Nat.mod_lt _ htot
      have hmap : ∀ j ∈ List.range rest.length,
          ((fun j => (c + producedCount (List.take (j + 1) ((d, true) :: rest)))
              % totalGroups) ∘ Nat.succ) j
            = ((c + 1) % totalGroups + producedCount (List.take (j + 1) rest))
                % totalGroups := by
        intro j _
        simp only [Function.comp_apply, Nat.succ_eq_add_one, List.take_succ_cons,
          producedCount_cons_true, Nat.mod_add_mod]
        congr 1
        omega
      simp only [runSimAux, Point.Reset_eq, List.length_cons,
        List.range_succ_eq_map, List.map_cons, List.map_map, ih _ hc2,
        List.map_congr_left hmap]
      simp [List.take_succ_cons, producedCount_cons_true, producedCount_nil]

theorem runSimAux_counter_eq (groupID totalGroups : Nat)
    (iters : List (PointData × Bool)) (htot : 0 < totalGroups) :
    ∀ c : Nat, c < totalGroups →
      (runSimAux groupID totalGroups iters NewPoint c).counter
        = (c + producedCount iters) % totalGroups := by
  induction iters with
  | nil => intro c hc; simp [runSimAux, producedCount_nil, Nat.mod_eq_of_lt hc]
  | cons hd rest ih =>
    intro c hc
    obtain ⟨d, w⟩ := hd
    cases w with
    | false =>
      simp [runSimAux, Point.Reset_eq, ih c hc, producedCount_cons_false]
    | true =>
      have hc2 : (c + 1) % totalGroups < totalGroups := Nat.mod_lt _ htot
      simp only [runSimAux, Point.Reset_eq, ih _ hc2, producedCount_cons_true,
        Nat.mod_add_mod]
      congr 1
      omega

theorem runSimAux_buffers_eq (groupID totalGroups : Nat)
    (iters : List (PointData × Bool)) :
    ∀ c : Nat,
      (runSimAux groupID totalGroups iters NewPoint c).buffers
        = List.replicate iters.length NewPoint := by
  induction iters with
  | nil => intro c; simp [runSimAux]
  | cons hd rest ih =>
    intro c
    obtain ⟨d, w⟩ := hd
    cases w <;>
      simp [runSimAux, Point.Reset_eq, ih, List.replicate_succ]

theorem count_filter_eq {α : Type} [DecidableEq α] (p : α → Bool) (a : α)
    (l : List α) :
    List.count a (List.filter p l) = if p a then List.count a l else 0 := by
  by_cases h : p a
  · rw [if_pos h, List.count_filter h]
  · rw [if_neg h]
    refine List.count_eq_zero.mpr ?_
    intro hmem
    exact h (List.of_mem_filter hmem)

theorem sum_map_range_single (n j c : Nat) (hj : j < n) :
    ((List.range n).map (fun g => if j = g then c else 0)).sum = c := by
  induction n with
  | zero => omega
  | succ m ih =>
    rw [List.range_succ, List.map_append, List.sum_append]
    by_cases h : j = m
    · subst h
      have hz : ((List.range j).map (fun g => if j = g then c else 0)).sum = 0 := by
        apply List.sum_eq_zero
        intro x hx
        obtain ⟨g, hg, rfl⟩ := List.mem_map.mp hx
        have : g < j := List.mem_range.mp hg
        rw [if_neg (by omega)]
      simp [hz]
    · have hj2 : j < m := by omega
      simp [ih hj2, h]

theorem flatten_fiber_perm {α : Type} [DecidableEq α] (f : α → Nat) (n : Nat)
    (l : List α) (h : ∀ a ∈ l, f a < n) :
    (((List.range n).map (fun g => l.filter (fun a => f a = g))).flatten).Perm l := by
  rw [List.perm_iff_count]
  intro a
  rw [List.count_flatten, List.map_map]
  have hmap : ∀ g ∈ List.range n,
      (List.count a ∘ fun g => l.filter (fun a => f a = g)) g
        = if f a = g then List.count a l else 0 := by
    intro g _
    simp only [Function.comp_apply]
    rw [count_filter_eq]
    by_cases hfa : f a = g <;> simp [hfa]
  rw [List.map_congr_left hmap]
  by_cases hmem : a ∈ l
  · exact sum_map_range_single n (f a) _ (h a hmem)
  · have hc : List.count a l = 0 := List.count_eq_zero.mpr hmem
    rw [hc]
    simp

theorem selectIdx_eq_enumFrom {α : Type} (totalGroups groupID : Nat)
    (ps : List α) :
    ∀ i : Nat,
      selectIdx totalGroups groupID ps i
        = ((List.enumFrom i ps).filter
            (fun x => x.1 % totalGroups = groupID)).map Prod.snd := by
  induction ps with
  | nil => intro i; simp [selectIdx]
  | cons a l ih =>
    intro i
    simp only [selectIdx, List.enumFrom_cons, List.filter_cons]
    by_cases h : i % totalGroups = groupID <;> simp [h, ih (i + 1)]

theorem selectIdx_one {α : Type} (ps : List α) :
    ∀ i : Nat, selectIdx 1 0 ps i = ps := by
  induction ps with
  | nil => intro i; rfl
  | cons a l ih => intro i; simp [selectIdx, Nat.mod_one, ih]

theorem flatten_selectIdx_perm {α : Type} [DecidableEq α] (totalGroups : Nat)
    (htot : 0 < totalGroups) (ps : List α) (i : Nat) :
    (((List.range totalGroups).map
        (fun g => selectIdx totalGroups g ps i)).flatten).Perm ps := by
  have h1 : (List.range totalGroups).map (fun g => selectIdx totalGroups g ps i)
      = ((List.range totalGroups).map
          (fun g => (List.enumFrom i ps).filter
            (fun x => x.1 % totalGroups = g))).map (List.map Prod.snd) := by
    rw [List.map_map]
    apply List.map_congr_left
    intro g _
    exact selectIdx_eq_enumFrom totalGroups g ps i
  rw [h1, ← List.map_flatten]
  have h3 := flatten_fiber_perm (fun x => x.1 % totalGroups) totalGroups
    (List.enumFrom i ps) (fun a _ => Nat.mod_lt _ htot)
  have h4 := h3.map Prod.snd
  rwa [List.enumFrom_map_snd] at h4

theorem runSimAuxChecked_eq (groupID totalGroups : Nat)
    (iters : List (PointData × Bool)) (htot : 0 < totalGroups) :
    ∀ (p : Point) (c : Nat),
      runSimAuxChecked groupID totalGroups iters p c
        = some ((runSimAux groupID totalGroups iters p c).output,
                (runSimAux groupID totalGroups iters p c).counter) := by
  induction iters with
  | nil => intro p c; rfl
  | cons hd rest ih =>
    intro p c
    obtain ⟨d, w⟩ := hd
    have hne : ¬ totalGroups = 0 := by omega
    cases w <;> simp [runSimAuxChecked, runSimAux, checkedMod, hne, ih]

theorem runSimAuxChecked_zero_none (groupID : Nat)
    (iters : List (PointData × Bool)) :
    ∀ (p : Point) (c : Nat),
      (runSimAuxChecked groupID 0 iters p c = none)
        ↔ iters.any Prod.snd = true := by
  induction iters with
  | nil => intro p c; simp [runSimAuxChecked]
  | cons hd rest ih =>
    intro p c
    obtain ⟨d, w⟩ := hd
    cases w with
    | false => simp [runSimAuxChecked, ih]
    | true => simp [runSimAuxChecked, checkedMod]

/-- Claim C1: for every simulator run with `totalGroups ≥ 1` and
`groupID < totalGroups`, `runSimulator` serializes exactly those produced
records whose zero-based index `i` in the sequence of produced records
satisfies `i % totalGroups = groupID`, in generation order; iterations where
`Next` returns false do not advance the round-robin counter, while every
produced record advances the counter by one modulo `totalGroups` whether or
not it was serialized (the counter after iteration `j` is the number of
records produced in the first `j + 1` iterations, modulo `totalGroups`), and
the Point buffer is reset after every iteration. -/
theorem claim_c1_round_robin (iters : List (PointData × Bool))
    (groupID totalGroups : Nat) (htot : 1 ≤ totalGroups)
    (_hgid : groupID < totalGroups) :
    (runSimulator iters groupID totalGroups).output
        = (selectIdx totalGroups groupID (produced iters) 0).map (fillPoint NewPoint)
    ∧ (runSimulator iters groupID totalGroups).counters
        = (List.range iters.length).map
            (fun j => producedCount (iters.take (j + 1)) % totalGroups)
    ∧ (runSimulator iters groupID totalGroups).buffers
        = List.replicate iters.length NewPoint := by
  refine ⟨?_, ?_, runSimAux_buffers_eq groupID totalGroups iters 0⟩
  · have h := runSimAux_output_eq groupID totalGroups iters 0
    rwa [Nat.zero_mod] at h
  · have h := runSimAux_counters_eq groupID totalGroups iters htot 0 htot
    simpa using h

/-- Witness for C1 at a concrete three-iteration run with two groups. -/
theorem claim_c1_round_robin_witness :
    ((1 : Nat) ≤ 2 ∧ (0 : Nat) < 2)
    ∧ ((runSimulator [(⟨"cpu", 1, [], []⟩, true), (⟨"mem", 2, [], []⟩, false),
            (⟨"disk", 3, [], []⟩, true)] 0 2).output
          = (selectIdx 2 0 (produced [(⟨"cpu", 1, [], []⟩, true),
              (⟨"mem", 2, [], []⟩, false), (⟨"disk", 3, [], []⟩, true)]) 0).map
              (fillPoint NewPoint)
        ∧ (runSimulator [(⟨"cpu", 1, [], []⟩, true), (⟨"mem", 2, [], []⟩, false),
            (⟨"disk", 3, [], []⟩, true)] 0 2).counters
          = (List.range ([(⟨"cpu", 1, [], []⟩, true), (⟨"mem", 2, [], []⟩, false),
              ((⟨"disk", 3, [], []⟩ : PointData), true)] : List (PointData × Bool)).length).map
              (fun j => producedCount ([(⟨"cpu", 1, [], []⟩, true),
                (⟨"mem", 2, [], []⟩, false), (⟨"disk", 3, [], []⟩, true)].take (j + 1)) % 2)
        ∧ (runSimulator [(⟨"cpu", 1, [], []⟩, true), (⟨"mem", 2, [], []⟩, false),
            (⟨"disk", 3, [], []⟩, true)] 0 2).buffers
          = List.replicate ([(⟨"cpu", 1, [], []⟩, true), (⟨"mem", 2, [], []⟩, false),
              ((⟨"disk", 3, [], []⟩ : PointData), true)] : List (PointData × Bool)).length NewPoint) :=
  ⟨⟨by decide, by decide⟩,
    claim_c1_round_robin [(⟨"cpu", 1, [], []⟩, true), (⟨"mem", 2, [], []⟩, false),
      (⟨"disk", 3, [], []⟩, true)] 0 2 (by decide) (by decide)⟩

/-- Claim C2: for every fixed record sequence and every `totalGroups > 1`,
running `runSimulator` once per `groupID` in `[0, totalGroups)` and
concatenating the serialized outputs in group order yields exactly the
records serialized by the run with `totalGroups = 1` and `groupID = 0`, each
appearing exactly once (a permutation: no duplicates, no omissions). -/
theorem claim_c2_partition (iters : List (PointData × Bool)) (totalGroups : Nat)
    (htot : 1 < totalGroups) :
    (((List.range totalGroups).map
        (fun gid => (runSimulator iters gid totalGroups).output)).flatten).Perm
      ((runSimulator iters 0 1).output) := by
  have h0 : 0 < totalGroups := by omega
  have h1 : (runSimulator iters 0 1).output
      = (produced iters).map (fillPoint NewPoint) := by
    have h := runSimAux_output_eq 0 1 iters 0
    rw [Nat.zero_mod, selectIdx_one] at h
    exact h
  have h2 : (List.range totalGroups).map
        (fun gid => (runSimulator iters gid totalGroups).output)
      = ((List.range totalGroups).map
          (fun gid => selectIdx totalGroups gid (produced iters) 0)).map
          (List.map (fillPoint NewPoint)) := by
    rw [List.map_map]
    apply List.map_congr_left
    intro g _
    have h := runSimAux_output_eq g totalGroups iters 0
    rwa [Nat.zero_mod] at h
  rw [h1, h2, ← List.map_flatten]
  exact (flatten_selectIdx_perm totalGroups h0 (produced iters) 0).map
    (fillPoint NewPoint)

/-- Witness for C2: the two-group runs over a concrete record sequence
together form a permutation of the single-group run. -/
theorem claim_c2_partition_witness :
    (1 : Nat) < 2
    ∧ (((List.range 2).map
          (fun gid => (runSimulator [(⟨"a", 1, [], []⟩, true),
              (⟨"b", 2, [], []⟩, true), (⟨"c", 3, [], []⟩, false),
              (⟨"d", 4, [], []⟩, true)] gid 2).output)).flatten).Perm
        ((runSimulator [(⟨"a", 1, [], []⟩, true), (⟨"b", 2, [], []⟩, true),
            (⟨"c", 3, [], []⟩, false), (⟨"d", 4, [], []⟩, true)] 0 1).output) :=
  ⟨by decide,
    claim_c2_partition [(⟨"a", 1, [], []⟩, true), (⟨"b", 2, [], []⟩, true),
      (⟨"c", 3, [], []⟩, false), (⟨"d", 4, [], []⟩, true)] 2 (by decide)⟩

/-- Claim C3: `validateGroups groupID totalGroups` returns an error iff
`totalGroups = 0` or `groupID ≥ totalGroups` (so it fails for
`groupID = totalGroups` and `groupID > totalGroups`), the boolean result is
true exactly when there is no error, and for every `totalGroups ≥ 1` the pair
`(totalGroups - 1, totalGroups)` validates with `(true, none)`. -/
theorem claim_c3_validateGroups (groupID totalGroups : Nat) :
    ((validateGroups groupID totalGroups).2.isSome = true
        ↔ (totalGroups = 0 ∨ groupID ≥ totalGroups))
    ∧ ((validateGroups groupID totalGroups).1 = true
        ↔ (validateGroups groupID totalGroups).2 = none)
    ∧ (1 ≤ totalGroups →
        validateGroups (totalGroups - 1) totalGroups = (true, none)) := by
  refine ⟨?_, ?_, ?_⟩
  · unfold validateGroups
    split_ifs with h1 h2 <;> simp <;> omega
  · unfold validateGroups
    split_ifs <;> simp
  · intro ht
    unfold validateGroups
    rw [if_neg (by omega), if_neg (by omega)]

/-- Witness for C3: concrete failing and succeeding group configurations. -/
theorem claim_c3_validateGroups_witness :
    ((validateGroups 2 2).2.isSome = true ↔ ((2 : Nat) = 0 ∨ (2 : Nat) ≥ 2))
    ∧ ((validateGroups 2 2).1 = true ↔ (validateGroups 2 2).2 = none)
    ∧ (1 ≤ (2 : Nat) → validateGroups (2 - 1) 2 = (true, none)) :=
  claim_c3_validateGroups 2 2

/-- Claim C4: with a non-zero seed and `totalGroups = 1`, `groupID = 0`, the
pipeline output is independent of the only environmental input (the current
time used when the seed flag is zero): two runs with the same configuration
produce identical output. -/
theorem claim_c4_determinism
    (simulate : Int → SimulatorConfig → List (PointData × Bool))
    (serializeFn : Point → String) (fields : List (String × List String))
    (tagKeys : List String)
    (flagSeed now1 now2 timestampStart timestampEnd : Int)
    (initScaleVar scaleVar : Nat) (format useCase : String)
    (hseed : flagSeed ≠ 0) :
    mainRun simulate serializeFn fields tagKeys flagSeed now1 timestampStart
        timestampEnd initScaleVar scaleVar 0 1 format useCase
      = mainRun simulate serializeFn fields tagKeys flagSeed now2 timestampStart
          timestampEnd initScaleVar scaleVar 0 1 format useCase := by
  simp only [mainRun, effectiveSeed, if_neg hseed]

/-- Witness for C4 at seed 42 and two different clock readings. -/
theorem claim_c4_determinism_witness :
    (42 : Int) ≠ 0
    ∧ mainRun (fun _ _ => []) (fun _ => "") [] [] 42 5 0 1 1 1 0 1
          formatInflux useCaseDevops
        = mainRun (fun _ _ => []) (fun _ => "") [] [] 42 7 0 1 1 1 0 1
            formatInflux useCaseDevops :=
  ⟨by decide,
    claim_c4_determinism (fun _ _ => []) (fun _ => "") [] [] 42 5 7 0 1 1 1
      formatInflux useCaseDevops (by decide)⟩

/-- Claim C5: for the TimescaleDB format the driver emits, before any data
record, a preamble of: one header line that is the marker `tags` followed by
a comma and each machine tag key in the given fixed order; one line per
measurement with measurement names in strictly ascending lexicographic order,
each listing the measurement's field names in the order of the `Fields()`
mapping; then one blank line. -/
theorem claim_c5_preamble
    (simulate : Int → SimulatorConfig → List (PointData × Bool))
    (serializeFn : Point → String) (fields : List (String × List String))
    (tagKeys : List String)
    (flagSeed now timestampStart timestampEnd : Int)
    (initScaleVar scaleVar groupID totalGroups : Nat)
    (hnd : (fields.map Prod.fst).Nodup)
    (hvg : (validateGroups groupID totalGroups).2 = none) :
    (∃ names : List String,
      timescaleDBPreambleLines tagKeys fields
        = ("tags" ++ String.join (tagKeys.map (fun k => "," ++ k)))
            :: names.map (fun n =>
                n ++ String.join ((lookupFields fields n).map (fun f => "," ++ f)))
            ++ [""]
      ∧ names.Perm (fields.map Prod.fst)
      ∧ List.Sorted (· < ·) names)
    ∧ (mainRun simulate serializeFn fields tagKeys flagSeed now timestampStart
          timestampEnd initScaleVar scaleVar groupID totalGroups
          formatTimescaleDB useCaseDevops).1
        = timescaleDBPreambleLines tagKeys fields
            ++ ((runSimulator (simulate (effectiveSeed flagSeed now)
                  ⟨timestampStart, timestampEnd, initScaleVar, scaleVar,
                    HostKind.host⟩) groupID totalGroups).output).map serializeFn := by
  constructor
  · refine ⟨sortKeys fields, rfl, List.perm_insertionSort _ _, ?_⟩
    have hs : List.Sorted (· ≤ ·) (sortKeys fields) :=
      List.sorted_insertionSort _ _
    have hnd2 : (sortKeys fields).Nodup :=
      ((List.perm_insertionSort (· ≤ ·) (fields.map Prod.fst)).nodup_iff).mpr hnd
    exact hs.lt_of_le hnd2
  · have hvf : validateFormat formatTimescaleDB = true := by decide
    simp [mainRun, hvg, hvf, getConfig]

/-- Witness for C5 at a concrete two-measurement schema. -/
theorem claim_c5_preamble_witness :
    ((([("cpu", ["usage"]), ("mem", ["free"])] :
        List (String × List String)).map Prod.fst).Nodup
      ∧ (validateGroups 0 1).2 = none)
    ∧ ((∃ names : List String,
        timescaleDBPreambleLines ["hostname"] [("cpu", ["usage"]), ("mem", ["free"])]
          = ("tags" ++ String.join ((["hostname"] : List String).map (fun k => "," ++ k)))
              :: names.map (fun n =>
                  n ++ String.join ((lookupFields
                    [("cpu", ["usage"]), ("mem", ["free"])] n).map (fun f => "," ++ f)))
              ++ [""]
        ∧ names.Perm (([("cpu", ["usage"]), ("mem", ["free"])] :
            List (String × List String)).map Prod.fst)
        ∧ List.Sorted (· < ·) names)
      ∧ (mainRun (fun _ _ => []) (fun _ => "") [("cpu", ["usage"]), ("mem", ["free"])]
            ["hostname"] 1 0 0 0 0 0 0 1 formatTimescaleDB useCaseDevops).1
          = timescaleDBPreambleLines ["hostname"] [("cpu", ["usage"]), ("mem", ["free"])]
              ++ ((runSimulator ((fun (_ : Int) (_ : SimulatorConfig) =>
                    ([] : List (PointData × Bool))) (effectiveSeed 1 0)
                    ⟨0, 0, 0, 0, HostKind.host⟩) 0 1).output).map (fun _ => "")) :=
  ⟨⟨by decide, by decide⟩,
    claim_c5_preamble (fun _ _ => []) (fun _ => "")
      [("cpu", ["usage"]), ("mem", ["free"])] ["hostname"] 1 0 0 0 0 0 0 1
      (by decide) (by decide)⟩

/-- Claim C6: in every iteration of the generation loop, whether or not the
simulator produced a record and whether or not it was this group's turn, the
shared Point buffer is reset before the next `Next` call: every `Next` call
receives a buffer equal to a freshly constructed empty Point, and `Reset`
always yields exactly the freshly constructed empty Point. -/
theorem claim_c6_buffer_reset (iters : List (PointData × Bool))
    (groupID totalGroups : Nat) :
    (runSimulator iters groupID totalGroups).buffers
        = List.replicate iters.length NewPoint
    ∧ ∀ p : Point, p.Reset = NewPoint :=
  ⟨runSimAux_buffers_eq groupID totalGroups iters 0, fun _ => rfl⟩

/-- Claim C7: every configuration validation failure (zero total groups,
group id out of range, unknown format, unknown use case) stops the run with
an error before any chunk is written to the output stream; in particular the
group and format checks precede the TimescaleDB preamble and all records. -/
theorem claim_c7_validation_failure
    (simulate : Int → SimulatorConfig → List (PointData × Bool))
    (serializeFn : Point → String) (fields : List (String × List String))
    (tagKeys : List String)
    (flagSeed now timestampStart timestampEnd : Int)
    (initScaleVar scaleVar : Nat) (groupID totalGroups : Nat)
    (format useCase : String)
    (h : totalGroups = 0 ∨ groupID ≥ totalGroups
        ∨ validateFormat format = false
        ∨ getConfig useCase timestampStart timestampEnd initScaleVar scaleVar
            = none) :
    (mainRun simulate serializeFn fields tagKeys flagSeed now timestampStart
        timestampEnd initScaleVar scaleVar groupID totalGroups format useCase).1
      = []
    ∧ (mainRun simulate serializeFn fields tagKeys flagSeed now timestampStart
        timestampEnd initScaleVar scaleVar groupID totalGroups format
        useCase).2.isSome = true := by
  cases hvg : (validateGroups groupID totalGroups).2 with
  | some e => simp [mainRun, hvg]
  | none =>
    have hggood : ¬ totalGroups = 0 ∧ ¬ groupID ≥ totalGroups := by
      unfold validateGroups at hvg
      split_ifs at hvg with h1 h2
      exact ⟨h1, h2⟩
    rcases h with h | h | h | h
    · exact absurd h hggood.1
    · exact absurd h hggood.2
    · simp [mainRun, hvg, h]
    · by_cases hf : validateFormat format = false
      · simp [mainRun, hvg, hf]
      · simp [mainRun, hvg, hf, h]

/-- Witness for C7: an invalid format aborts with no output chunks. -/
theorem claim_c7_validation_failure_witness :
    validateFormat "parquet" = false
    ∧ ((mainRun (fun _ _ => []) (fun _ => "") [] [] 1 0 0 0 0 0 0 1 "parquet"
          useCaseDevops).1 = []
        ∧ (mainRun (fun _ _ => []) (fun _ => "") [] [] 1 0 0 0 0 0 0 1 "parquet"
            useCaseDevops).2.isSome = true) :=
  ⟨by decide,
    claim_c7_validation_failure (fun _ _ => []) (fun _ => "") [] [] 1 0 0 0 0 0
      0 1 "parquet" useCaseDevops (Or.inr (Or.inr (Or.inl (by decide))))⟩

/-- Claim C8: the high-CPU TimescaleDB generator embeds the shared
engine-common generator built from `(dbConfig, start, end)` together with the
extra `hosts` field, and `Dispatch` fills the Query obtained from the pool by
delegating to the shared `HighCPUForHosts` builder with `(scaleVar, hosts)`,
returning that filled Query. -/
theorem claim_c8_highcpu_dispatch (dbConfig : DatabaseConfig)
    (start finish : Int) (hosts : Int)
    (highCPUForHosts : TimescaleDBDevops → Query → Int → Int → Query)
    (pooled : Query) (x scaleVar : Int) :
    (NewTimescaleDBDevopsHighCPU hosts dbConfig start finish).toTimescaleDBDevops
        = newTimescaleDBDevopsCommon dbConfig start finish
    ∧ (NewTimescaleDBDevopsHighCPU hosts dbConfig start finish).hosts = hosts
    ∧ TimescaleDBDevopsHighCPU.Dispatch highCPUForHosts pooled
        (NewTimescaleDBDevopsHighCPU hosts dbConfig start finish) x scaleVar
      = highCPUForHosts (newTimescaleDBDevopsCommon dbConfig start finish)
          pooled scaleVar hosts :=
  ⟨rfl, rfl, rfl⟩

/-- Claim C9: with `totalGroups ≥ 1` the counter update
`(currGroup + 1) % totalGroups` never divides by zero, so the checked run
agrees with `runSimulator` on every record sequence; with `totalGroups = 0`
the checked run panics exactly when some record is produced; and passing
`validateGroups` guarantees the panic-free behaviour, so the validation in
`main` is what makes the division safe. -/
theorem claim_c9_no_div_by_zero (iters : List (PointData × Bool))
    (groupID totalGroups : Nat) :
    (1 ≤ totalGroups →
      runSimulatorChecked iters groupID totalGroups
        = some ((runSimulator iters groupID totalGroups).output,
                (runSimulator iters groupID totalGroups).counter))
    ∧ (totalGroups = 0 →
        (runSimulatorChecked iters groupID totalGroups = none
          ↔ iters.any Prod.snd = true))
    ∧ ((validateGroups groupID totalGroups).2 = none →
        runSimulatorChecked iters groupID totalGroups
          = some ((runSimulator iters groupID totalGroups).output,
                  (runSimulator iters groupID totalGroups).counter)) := by
  refine ⟨?_, ?_, ?_⟩
  · intro ht
    exact runSimAuxChecked_eq groupID totalGroups iters ht NewPoint 0
  · intro ht
    subst ht
    exact runSimAuxChecked_zero_none groupID iters NewPoint 0
  · intro hv
    have ht : 1 ≤ totalGroups := by
      rcases Nat.eq_zero_or_pos totalGroups with h0 | h0
      · subst h0
        simp [validateGroups] at hv
      · exact h0
    exact runSimAuxChecked_eq groupID totalGroups iters ht NewPoint 0

/-- Witness for C9: the checked run agrees with the plain run at a concrete
input, and the zero-group run panics on a produced record. -/
theorem claim_c9_no_div_by_zero_witness :
    ((1 : Nat) ≤ 2
      ∧ runSimulatorChecked [(⟨"m", 0, [], []⟩, true)] 0 2
          = some ((runSimulator [(⟨"m", 0, [], []⟩, true)] 0 2).output,
                  (runSimulator [(⟨"m", 0, [], []⟩, true)] 0 2).counter))
    ∧ (runSimulatorChecked [(⟨"m", 0, [], []⟩, true)] 0 0 = none
        ↔ ([(⟨"m", 0, [], []⟩, true)] : List (PointData × Bool)).any Prod.snd
            = true) :=
  ⟨⟨by decide, (claim_c9_no_div_by_zero [(⟨"m", 0, [], []⟩, true)] 0 2).1
      (by decide)⟩,
    (claim_c9_no_div_by_zero [(⟨"m", 0, [], []⟩, true)] 0 0).2.1 rfl⟩

/-- Claim C10: the first argument of `Dispatch` is ignored: for every
generator state, builder, pooled Query and scale variable, the result is the
same for any two values of the first parameter. -/
theorem claim_c10_dispatch_ignores_first (d : TimescaleDBDevopsHighCPU)
    (highCPUForHosts : TimescaleDBDevops → Query → Int → Int → Query)
    (pooled : Query) (a b scaleVar : Int) :
    TimescaleDBDevopsHighCPU.Dispatch highCPUForHosts pooled d a scaleVar
      = TimescaleDBDevopsHighCPU.Dispatch highCPUForHosts pooled d b scaleVar :=
  rfl

end Tsbs
